import Mathlib

/-!
Shallow embedding of `main.go` of jimmyfrasche/issue61915: a scanner that
counts "Iverson bracket" idioms in Go packages, in implicit form
(`if cond { x = 1 } else { x = 2 }`) and explicit form (a call to a
`func(~bool) ~number`, or an index into a `map[~bool]~number`).

The embedding models the go/types values the program inspects (`GoType`,
with `typesDefault` for `types.Default` and `GoType.underlying` for
`Type.Underlying`), the go/ast subset the scanner visits (`Expr`, `Stmt`,
with slice and optional fields as the mutually inductive `ExprList`,
`StmtList` and `OptStmt` so that the traversal is structurally recursive),
and the traversal of `counter.inspect` driven by `ast.Inspect`, including
the manual re-entry `counter.recurOnIf` performs on unmatched
conditionals. A `nil` `types.Type` interface value is `Option.none`; Go
code that would panic on it (calling a method on the nil interface) is
modelled in the `Except Unit` monad, `.error ()` standing for the panic.
-/

/-- The kinds of `*types.Basic` (go/types `BasicKind`). -/
inductive BasicKind where
  | invalid
  | bool
  | int | int8 | int16 | int32 | int64
  | uint | uint8 | uint16 | uint32 | uint64 | uintptr
  | float32 | float64
  | complex64 | complex128
  | string
  | unsafePointer
  | untypedBool | untypedInt | untypedRune | untypedFloat
  | untypedComplex | untypedString | untypedNil
deriving DecidableEq, Repr

/-- The `types.Type` values the program distinguishes: basic types, defined
(named) types carrying their underlying type, signatures (receiver
presence, parameter tuple, result tuple, variadic flag — the tuples are
`Option`s because `Signature.Params`/`Results` may be a nil `*types.Tuple`,
which line 188 of main.go checks for), map types, and everything else. -/
inductive GoType where
  | basic (k : BasicKind)
  | named (base : GoType)
  | signature (hasRecv : Bool) (params : Option (List GoType))
      (results : Option (List GoType)) (variadic : Bool)
  | mapType (key elem : GoType)
  | other

/-- `types.Default`: collapses untyped constant types to their default
concrete type; every other type (untyped nil included) is unchanged. -/
def typesDefault : GoType → GoType
  | .basic .untypedBool => .basic .bool
  | .basic .untypedInt => .basic .int
  | .basic .untypedRune => .basic .int32
  | .basic .untypedFloat => .basic .float64
  | .basic .untypedComplex => .basic .complex128
  | .basic .untypedString => .basic .string
  | t => t

/-- `types.Type.Underlying`: a defined type's underlying type (in go/types
the underlying type of a `*types.Named` is never itself named; recursing
through `named` is therefore the same resolution); every non-named type is
its own underlying type. -/
def GoType.underlying : GoType → GoType
  | .named base => base.underlying
  | t => t

/-- `boolish` (main.go lines 205-214): nil types are `false`; otherwise the
default type's underlying representation must be the basic kind `Bool`. -/
def boolish : Option GoType → Bool
  | none => false
  | some typ =>
    match (typesDefault typ).underlying with
    | .basic k => k = .bool
    | _ => false

/-- `numeric` (main.go lines 216-230): nil types are `false`; otherwise the
default type's underlying representation must be a basic type whose kind is
one of the fourteen kinds of the switch on line 225 (note: `Uintptr` is not
among them). -/
def numeric : Option GoType → Bool
  | none => false
  | some typ =>
    match (typesDefault typ).underlying with
    | .basic k =>
      match k with
      | .int | .int8 | .int16 | .int32 | .int64
      | .uint | .uint8 | .uint16 | .uint32 | .uint64
      | .float32 | .float64 | .complex64 | .complex128 => true
      | _ => false
    | _ => false

/-- `IsBracketFunc` (main.go lines 179-195). The Go code immediately calls
`typ.Underlying()`: on a nil `types.Type` interface value that is a nil
pointer dereference panic, modelled as `.error ()`. Otherwise: the
underlying type must be a signature with no receiver, non-nil parameter and
result tuples, exactly one parameter and one result, not variadic, with a
boolish parameter type and a numeric result type. -/
def IsBracketFunc : Option GoType → Except Unit Bool
  | none => .error ()
  | some typ =>
    match typ.underlying with
    | .signature hasRecv params results variadic =>
      if hasRecv then .ok false
      else
        match params, results with
        | none, _ => .ok false
        | _, none => .ok false
        | some ins, some outs =>
          if ins.length != 1 || outs.length != 1 || variadic then .ok false
          else .ok (boolish ins.head? && numeric outs.head?)
    | _ => .ok false

/-- `IsMapBracket` (main.go lines 197-203): a direct type assertion
`typ.(*types.Map)` — which is safe on a nil interface value and simply
fails — followed by `boolish` on the key and `numeric` on the element.
Note that unlike `IsBracketFunc` this does not take `Underlying()`. -/
def IsMapBracket : Option GoType → Bool
  | none => false
  | some typ =>
    match typ with
    | .mapType key elem => boolish (some key) && numeric (some elem)
    | _ => false

/-- The assignment token of an `*ast.AssignStmt`: `=` (`token.ASSIGN`),
`:=` (`token.DEFINE`), or a compound operator such as `+=`. -/
inductive AssignTok where
  | assign
  | define
  | compound
deriving DecidableEq, Repr

mutual

/-- The go/ast expressions the scanner distinguishes: identifiers, basic
literals, selector expressions (`x.sel`), binary expressions, call
expressions and index expressions. Call and index nodes carry the position
that `n.Pos()` reports to the diagnostic log. -/
inductive Expr where
  | ident (name : String)
  | basicLit (value : String)
  | selector (x : Expr) (sel : String)
  | binary (x y : Expr)
  | call (fn : Expr) (args : ExprList) (pos : Nat)
  | index (x : Expr) (idx : Expr) (pos : Nat)

/-- A `[]ast.Expr` slice. -/
inductive ExprList where
  | nil
  | cons (e : Expr) (es : ExprList)

end

mutual

/-- The go/ast statements the scanner distinguishes. An `*ast.IfStmt` has
an optional initializer, a condition, a body (the statement list of its
`*ast.BlockStmt` body) and an optional else statement, which the parser
produces as either an `*ast.IfStmt` (chained else-if) or an
`*ast.BlockStmt` (terminal else); it also carries its reported position.
An `*ast.AssignStmt` has a list of left-hand sides, a token, and a
non-empty list of right-hand sides (`rhs0` and `rhsRest`), matching the
parser invariant that line 169 of main.go relies on with `assign.Rhs[0]`. -/
inductive Stmt where
  | assign (lhs : ExprList) (tok : AssignTok) (rhs0 : Expr) (rhsRest : ExprList)
  | exprStmt (e : Expr)
  | block (stmts : StmtList)
  | ifStmt (init : OptStmt) (cond : Expr) (body : StmtList)
      (els : OptStmt) (pos : Nat)

/-- A `[]ast.Stmt` slice (the statement list of an `*ast.BlockStmt`). -/
inductive StmtList where
  | nil
  | cons (s : Stmt) (ss : StmtList)

/-- A possibly-nil `ast.Stmt` field (`IfStmt.Init`, `IfStmt.Else`). -/
inductive OptStmt where
  | none
  | some (s : Stmt)

end

/-- `len` of an expression slice. -/
def ExprList.length : ExprList → Nat
  | .nil => 0
  | .cons _ es => es.length + 1

/-- The type oracle `pkg.TypesInfo.TypeOf`: resolved type of an expression,
or `none` for the nil `types.Type` interface value. -/
def TypeEnv : Type := Expr → Option GoType

/-- The mutable state of a `counter` (main.go lines 75-78) together with
the stream of positions `log.Print` has emitted (line 114), in emission
order. -/
structure ScanState where
  implicit : Nat
  explicit : Nat
  hits : List Nat
deriving DecidableEq, Repr

/-- `BranchOnlySetsNumber` (main.go lines 154-176): the block holds exactly
one statement; it is an `*ast.AssignStmt` with token `=`, exactly one
left-hand side, and a first right-hand expression that is syntactically a
`*ast.BasicLit` or `*ast.Ident` and whose resolved type is `numeric`. -/
def BranchOnlySetsNumber (env : TypeEnv) (body : StmtList) : Bool :=
  match body with
  | .cons stmt .nil =>
    match stmt with
    | .assign lhs tok rhs0 _ =>
      if tok != AssignTok.assign then false
      else if lhs.length != 1 then false
      else
        match rhs0 with
        | .basicLit _ => numeric (env rhs0)
        | .ident _ => numeric (env rhs0)
        | _ => false
    | _ => false
  | _ => false

/-- `PotentialIversonIf` (main.go lines 142-151): the conditional has an
else branch, the else branch is an `*ast.BlockStmt` (the type assertion on
line 146 fails on a chained `*ast.IfStmt`), and both the body and the else
block satisfy `BranchOnlySetsNumber`. -/
def PotentialIversonIf (env : TypeEnv) (body : StmtList) (els : OptStmt) : Bool :=
  match els with
  | .none => false
  | .some (.block elseBlock) =>
    BranchOnlySetsNumber env body && BranchOnlySetsNumber env elseBlock
  | .some _ => false

/-- Is the call target syntactically an `*ast.SelectorExpr`? (the type
assertion `n.Fun.(*ast.SelectorExpr)` on line 100 of main.go). -/
def isSelectorExpr : Expr → Bool
  | .selector _ _ => true
  | _ => false

/-- The `*ast.CallExpr` case of `counter.inspect` (main.go lines 98-104),
before the traversal descends into the call's children: when the call
target is not a selector expression, `IsBracketFunc` is applied to its
resolved type (which panics on a nil type); a `true` verdict increments
`explicit` and logs the node's position. -/
def callStep (env : TypeEnv) (st : ScanState) (fn : Expr) (pos : Nat) :
    Except Unit ScanState :=
  if isSelectorExpr fn then .ok st
  else do
    let b ← IsBracketFunc (env fn)
    if b then
      .ok { st with explicit := st.explicit + 1, hits := st.hits ++ [pos] }
    else .ok st

/-- The `*ast.IndexExpr` case of `counter.inspect` (main.go lines
106-111): `IsMapBracket` on the resolved type of the indexed expression; a
`true` verdict increments `explicit` and logs the node's position. -/
def indexStep (env : TypeEnv) (st : ScanState) (x : Expr) (pos : Nat) : ScanState :=
  if IsMapBracket (env x) then
    { st with explicit := st.explicit + 1, hits := st.hits ++ [pos] }
  else st

mutual

/-- `ast.Inspect(e, c.inspect)` on an expression: the node's own
`counter.inspect` action followed — `inspect` returns `true` on every
expression — by the walk of its children in `ast.Walk` order. -/
def inspectExpr (env : TypeEnv) (st : ScanState) : Expr → Except Unit ScanState
  | .ident _ => .ok st
  | .basicLit _ => .ok st
  | .selector x _ => inspectExpr env st x
  | .binary x y => do
    let st ← inspectExpr env st x
    inspectExpr env st y
  | .call fn args pos => do
    let st ← callStep env st fn pos
    let st ← inspectExpr env st fn
    inspectExprList env st args
  | .index x idx pos => do
    let st := indexStep env st x pos
    let st ← inspectExpr env st x
    inspectExpr env st idx

/-- Walk a slice of child expressions in order. -/
def inspectExprList (env : TypeEnv) (st : ScanState) : ExprList → Except Unit ScanState
  | .nil => .ok st
  | .cons e es => do
    let st ← inspectExpr env st e
    inspectExprList env st es

end

mutual

/-- `ast.Inspect(s, c.inspect)` on a statement. For an `*ast.IfStmt`
(main.go lines 87-96): when `PotentialIversonIf` matches, `implicit` is
incremented, the position is logged, and `inspect` returns `true`, so
`ast.Walk` proceeds into the initializer, condition, body and else branch;
when it does not match, `counter.recurOnIf` re-enters the initializer, the
condition and the body manually (its body is inlined here so the recursion
stays structural; the wrapper `recurOnIf` below packages the same steps)
and `inspect` returns `false`, stopping the default descent. All other
statements are transparent. -/
def inspectStmt (env : TypeEnv) (st : ScanState) : Stmt → Except Unit ScanState
  | .assign lhs _ rhs0 rhsRest => do
    let st ← inspectExprList env st lhs
    let st ← inspectExpr env st rhs0
    inspectExprList env st rhsRest
  | .exprStmt e => inspectExpr env st e
  | .block stmts => inspectStmtList env st stmts
  | .ifStmt init cond body els pos =>
    if PotentialIversonIf env body els then do
      let st : ScanState :=
        { st with implicit := st.implicit + 1, hits := st.hits ++ [pos] }
      let st ← inspectOptStmt env st init
      let st ← inspectExpr env st cond
      let st ← inspectStmtList env st body
      inspectOptStmt env st els
    else do
      let st ← inspectOptStmt env st init
      let st ← inspectExpr env st cond
      let st ← inspectStmtList env st body
      recurOnElse env st els

/-- Walk a slice of child statements in order. -/
def inspectStmtList (env : TypeEnv) (st : ScanState) : StmtList → Except Unit ScanState
  | .nil => .ok st
  | .cons s ss => do
    let st ← inspectStmt env st s
    inspectStmtList env st ss

/-- Walk an optional child statement (`ast.Walk` skips a nil child). -/
def inspectOptStmt (env : TypeEnv) (st : ScanState) : OptStmt → Except Unit ScanState
  | .none => .ok st
  | .some s => inspectStmt env st s

/-- The switch on the else branch at the end of `counter.recurOnIf`
(main.go lines 125-131): nothing for a nil else; for a chained
`*ast.IfStmt`, the recursive `c.recurOnIf(Else)` call — its body (walk the
initializer, condition and body, then this switch on the inner else) is
inlined here, and crucially it does not re-enter `counter.inspect` on the
chained conditional; `ast.Inspect` on a terminal `*ast.BlockStmt`; nothing
for any other statement shape. -/
def recurOnElse (env : TypeEnv) (st : ScanState) : OptStmt → Except Unit ScanState
  | .none => .ok st
  | .some (.ifStmt init2 cond2 body2 els2 _) => do
    let st ← inspectOptStmt env st init2
    let st ← inspectExpr env st cond2
    let st ← inspectStmtList env st body2
    recurOnElse env st els2
  | .some (.block stmts) => inspectStmtList env st stmts
  | .some _ => .ok st

end

/-- `counter.recurOnIf` (main.go lines 119-132), applied to the fields of
the unmatched `*ast.IfStmt`: re-enter the initializer (when present), the
condition and the body through `ast.Inspect`, then run the else switch
(`recurOnElse`). This is exactly the else branch of `inspectStmt` on an
`ifStmt`. -/
def recurOnIf (env : TypeEnv) (st : ScanState) (init : OptStmt) (cond : Expr)
    (body : StmtList) (els : OptStmt) : Except Unit ScanState := do
  let st ← inspectOptStmt env st init
  let st ← inspectExpr env st cond
  let st ← inspectStmtList env st body
  recurOnElse env st els

/-- A loaded package as the scanner sees it (`*packages.Package`): its ID,
its type information, and its list of files (`pkg.Syntax`), each file being
its statements. -/
structure Pkg where
  id : String
  env : TypeEnv
  files : List StmtList

/-- The loop of `Find` (main.go lines 136-138): one shared counter,
`ast.Inspect` over each file in order. -/
def scanFiles (env : TypeEnv) (st : ScanState) : List StmtList → Except Unit ScanState
  | [] => .ok st
  | f :: fs => do
    let st ← inspectStmtList env st f
    scanFiles env st fs

/-- `Find` (main.go lines 134-140): scan a package starting from a fresh
counter and return `(implicit, explicit)`. -/
def Find (pkg : Pkg) : Except Unit (Nat × Nat) := do
  let st ← scanFiles pkg.env ⟨0, 0, []⟩ pkg.files
  .ok (st.implicit, st.explicit)

/-- What the external `packages.Load` produced: either a hard load error,
or a package list together with the number of package errors that
`packages.PrintErrors` would report. -/
inductive LoaderOutcome where
  | failure (msg : String)
  | success (ps : List Pkg) (errCount : Nat)

/-- How a run of `Main` can fail: an error value returned to the caller,
or a runtime panic (which in Go aborts the program rather than being
returned). -/
inductive GoErr where
  | loadErr (msg : String)
  | panicked
deriving DecidableEq, Repr

/-- `Packages` (main.go lines 56-73): propagate the loader's error;
otherwise fail when `packages.PrintErrors` reported any errors, then when
the pattern resolved to zero packages; otherwise return the packages. -/
def Packages : LoaderOutcome → Except GoErr (List Pkg)
  | .failure msg => .error (.loadErr msg)
  | .success ps errCount =>
    if errCount > 0 then .error (.loadErr "could not load packages")
    else if ps.length = 0 then .error (.loadErr "no packages to load")
    else .ok ps

/-- The reporting loop of `Main` (main.go lines 36-45): scan each package;
a package whose two counts sum to zero contributes nothing; otherwise its
entry `(ID, implicit, explicit)` is appended to the output and its counts
are added to the running totals. -/
def reportLoop : List Pkg → List (String × Nat × Nat) → Nat → Nat →
    Except Unit (List (String × Nat × Nat) × Nat × Nat)
  | [], out, totImpl, totExpl => .ok (out, totImpl, totExpl)
  | pkg :: ps, out, totImpl, totExpl =>
    match Find pkg with
    | .error e => .error e
    | .ok (impl, expl) =>
      if impl + expl > 0 then
        reportLoop ps (out ++ [(pkg.id, impl, expl)]) (totImpl + impl) (totExpl + expl)
      else
        reportLoop ps out totImpl totExpl

/-- `Main` (main.go lines 30-54): load the packages (returning the load
error when that fails), run the reporting loop, and print the per-package
lines followed — only when more than one package was loaded — by the
aggregate TOTAL line. The result models the printed output: the list of
per-package entries and the optional aggregate. -/
def Main (lo : LoaderOutcome) :
    Except GoErr (List (String × Nat × Nat) × Option (Nat × Nat)) :=
  match Packages lo with
  | .error e => .error e
  | .ok ps =>
    match reportLoop ps [] 0 0 with
    | .error _ => .error .panicked
    | .ok (out, totImpl, totExpl) =>
      .ok (out, if ps.length > 1 then some (totImpl, totExpl) else none)

/-! ## Concrete material used by the claim theorems -/

/-- The signature `func(bool) int`. -/
def sigBoolInt : GoType :=
  .signature false (some [.basic .bool]) (some [.basic .int]) false

/-- Types of the identifiers of the example programs: `b`, `c1`, `c2`,
`cond` are `bool`; `x`, `y` are `int`; `s` is `string`; `f` is a
`func(bool) int`; `g` is a `func()`; `nm` has a defined type whose
underlying type is `map[bool]int`; `m` is a `map[bool]int`; every other
identifier is unresolved. -/
def demoIdentType (name : String) : Option GoType :=
  if name = "b" then some (.basic .bool)
  else if name = "c1" then some (.basic .bool)
  else if name = "c2" then some (.basic .bool)
  else if name = "cond" then some (.basic .bool)
  else if name = "x" then some (.basic .int)
  else if name = "y" then some (.basic .int)
  else if name = "s" then some (.basic .string)
  else if name = "f" then some sigBoolInt
  else if name = "g" then some (.signature false (some []) (some []) false)
  else if name = "nm" then some (.named (.mapType (.basic .bool) (.basic .int)))
  else if name = "m" then some (.mapType (.basic .bool) (.basic .int))
  else none

/-- The fixed type oracle of the example programs: identifiers as in
`demoIdentType`; every selector expression (a method value or
package-qualified function) has the `func(bool) int` shape; basic literals
are untyped integer constants; everything else is unresolved. -/
def demoEnv : TypeEnv := fun e =>
  match e with
  | .ident name => demoIdentType name
  | .selector _ _ => some sigBoolInt
  | .basicLit _ => some (.basic .untypedInt)
  | _ => none

/-- The statement `x = v` for a literal `v`. -/
def assignX (v : String) : Stmt :=
  .assign (.cons (.ident "x") .nil) .assign (.basicLit v) .nil

/-- The one-statement block `{ x = v }`. -/
def blockX (v : String) : StmtList := .cons (assignX v) .nil

/-- `if c2 { x = 1 } else { x = 2 }`: the second link of the else-if
chain, eligible for an implicit match on its own. -/
def chainLink2 : Stmt :=
  .ifStmt .none (.ident "c2") (blockX "1") (.some (.block (blockX "2"))) 20

/-- `if c1 { y = s } else if c2 { x = 1 } else { x = 2 }`: a three-link
chain (first conditional, second conditional, terminal else) in which only
the second link satisfies the implicit-match predicate. -/
def chainOuter : Stmt :=
  .ifStmt .none (.ident "c1")
    (.cons (.assign (.cons (.ident "y") .nil) .assign (.ident "s") .nil) .nil)
    (.some chainLink2) 10

/-- A package holding just the else-if chain. -/
def chainPkg : Pkg := ⟨"chain", demoEnv, [.cons chainOuter .nil]⟩

/-- `if f(b) == 0 { x = 1 } else { x = 2 }`: a conditional satisfying the
implicit match whose condition contains a call to a bracket function. -/
def ifWithCallInCond : Stmt :=
  .ifStmt .none
    (.binary (.call (.ident "f") (.cons (.ident "b") .nil) 7) (.basicLit "0"))
    (blockX "1") (.some (.block (blockX "2"))) 10

/-- `if cond { x = 1 } else { x = 2 }` with nothing else inside. -/
def plainIversonIf : Stmt :=
  .ifStmt .none (.ident "cond") (blockX "1") (.some (.block (blockX "2"))) 3

/-- `if cond { x = 1 }` — matching body, no else clause. -/
def noElseIf : Stmt :=
  .ifStmt .none (.ident "cond") (blockX "1") .none 4

/-- A package holding just the no-else conditional. -/
def noElsePkg : Pkg := ⟨"noelse", demoEnv, [.cons noElseIf .nil]⟩

/-- A file holding the direct call `f(b)` where `f : func(bool) int`. -/
def directCallFile : StmtList :=
  .cons (.exprStmt (.call (.ident "f") (.cons (.ident "b") .nil) 3)) .nil

/-- A package holding just the direct call. -/
def directCallPkg : Pkg := ⟨"direct", demoEnv, [directCallFile]⟩

/-- A file holding the method call `recv.m(b)` whose resolved callee type
has the same `func(bool) int` shape. -/
def methodCallFile : StmtList :=
  .cons (.exprStmt (.call (.selector (.ident "recv") "m")
    (.cons (.ident "b") .nil) 4)) .nil

/-- A package holding just the method call. -/
def methodCallPkg : Pkg := ⟨"method", demoEnv, [methodCallFile]⟩

/-- A file holding the package-qualified call `pkg.f(b)`, same shape. -/
def pkgQualifiedCallFile : StmtList :=
  .cons (.exprStmt (.call (.selector (.ident "pkg") "f")
    (.cons (.ident "b") .nil) 5)) .nil

/-- A package holding just the package-qualified call. -/
def pkgQualifiedCallPkg : Pkg := ⟨"qualified", demoEnv, [pkgQualifiedCallFile]⟩

/-- A file holding `nm[b]` where `nm` has a defined type whose underlying
type is `map[bool]int`. -/
def namedMapIndexFile : StmtList :=
  .cons (.exprStmt (.index (.ident "nm") (.ident "b") 6)) .nil

/-- A package holding just the defined-type map index. -/
def namedMapIndexPkg : Pkg := ⟨"namedmap", demoEnv, [namedMapIndexFile]⟩

/-- A package with an empty file: scan result `(0, 0)`. -/
def cleanPkg : Pkg := ⟨"clean", demoEnv, [.nil]⟩

/-! ## Claim theorems -/

/-- C3 counterexample: `IsBracketFunc` is not total on an absent type — the
Go code calls `Underlying()` on the nil interface value and panics, so the
claim that every classification predicate never raises an error for any
input, returning `false` on an absent type, fails on `IsBracketFunc`. -/
theorem c3_isBracketFunc_not_total_cex : IsBracketFunc none = Except.error () := rfl

/-- C3 (amended): `boolish`, `numeric` and `IsMapBracket` are total and
classify an absent type as `false`, but `IsBracketFunc` dereferences the
nil type without a guard and panics on an absent type. -/
theorem c3_classifiers_on_absent_types :
    boolish none = false ∧ numeric none = false ∧ IsMapBracket none = false ∧
    IsBracketFunc none = Except.error () :=
  ⟨rfl, rfl, rfl, rfl⟩

/-- C8: indexing an expression whose static type is a defined type is not
counted even when the defined type's underlying type is `map[bool]int`:
`IsMapBracket` asserts on the resolved type directly (no `Underlying()`),
so the defined type fails, the raw map type succeeds, and the scan of
`nm[b]` counts nothing — unlike `IsBracketFunc`, which does take
`Underlying()` and accepts a defined type whose underlying type is
`func(bool) int`. -/
theorem c8_named_map_not_counted :
    IsMapBracket (some (.named (.mapType (.basic .bool) (.basic .int)))) = false ∧
    IsMapBracket (some (.mapType (.basic .bool) (.basic .int))) = true ∧
    Find namedMapIndexPkg = .ok (0, 0) ∧
    IsBracketFunc (some (.named sigBoolInt)) = .ok true :=
  ⟨rfl, rfl, rfl, rfl⟩

/-- C4: `PotentialIversonIf` holds exactly when the conditional has an
else branch that is a plain terminal block and both blocks satisfy
`BranchOnlySetsNumber`; a conditional with no else clause never matches,
and scanning `if cond { x = 1 }` (matching body, no else) counts no
implicit hit. -/
theorem c4_potentialIversonIf_iff :
    (∀ (env : TypeEnv) (body : StmtList) (els : OptStmt),
      PotentialIversonIf env body els = true ↔
        ∃ eb, els = .some (Stmt.block eb) ∧ BranchOnlySetsNumber env body = true ∧
          BranchOnlySetsNumber env eb = true) ∧
    (∀ (env : TypeEnv) (body : StmtList),
      PotentialIversonIf env body .none = false) ∧
    Find noElsePkg = .ok (0, 0) := by
  refine ⟨?_, fun env body => rfl, rfl⟩
  intro env body els
  cases els with
  | none => simp [PotentialIversonIf]
  | some s =>
    cases s with
    | block eb => simp [PotentialIversonIf, Bool.and_eq_true]
    | assign lhs tok rhs0 rhsRest => simp [PotentialIversonIf]
    | exprStmt e => simp [PotentialIversonIf]
    | ifStmt init cond body2 els2 pos => simp [PotentialIversonIf]

/-- C5: `BranchOnlySetsNumber` holds exactly when the block is a single
plain `=` assignment with exactly one left-hand target whose first
right-hand expression is syntactically a basic literal or a bare
identifier of numeric resolved type. -/
theorem c5_branchOnlySetsNumber_iff :
    ∀ (env : TypeEnv) (body : StmtList),
      BranchOnlySetsNumber env body = true ↔
        ∃ lhs0 rhs0 rhsRest,
          body = StmtList.cons
            (Stmt.assign (ExprList.cons lhs0 ExprList.nil) AssignTok.assign
              rhs0 rhsRest) StmtList.nil ∧
          ((∃ v, rhs0 = Expr.basicLit v) ∨ (∃ nm, rhs0 = Expr.ident nm)) ∧
          numeric (env rhs0) = true := by
  intro env body
  cases body with
  | nil => simp [BranchOnlySetsNumber]
  | cons s ss =>
    cases ss with
    | cons s2 rest => simp [BranchOnlySetsNumber]
    | nil =>
      cases s with
      | exprStmt e => simp [BranchOnlySetsNumber]
      | block stmts => simp [BranchOnlySetsNumber]
      | ifStmt init cond body2 els pos => simp [BranchOnlySetsNumber]
      | assign lhs tok rhs0 rhsRest =>
        cases tok <;>
          rcases lhs with _ | ⟨l0, _ | ⟨l1, ls⟩⟩ <;>
            cases rhs0 <;>
              simp [BranchOnlySetsNumber, ExprList.length] <;>
                aesop

/-- The numeric-kind classification in the words of the specification
(section 4.1): a signed integer of any width, an unsigned integer of any
width, a floating point of any width, or a complex of any width. In
go/types the unsigned integer kinds are `Uint`, `Uint8` … `Uint64` and
`Uintptr` — `types.Uintptr` carries the `IsUnsigned` info flag and the Go
language specification describes `uintptr` as "an unsigned integer type" —
so `uintptr` falls under "unsigned integer (any width)". -/
def specNumericKind : BasicKind → Bool
  | .int | .int8 | .int16 | .int32 | .int64 => true
  | .uint | .uint8 | .uint16 | .uint32 | .uint64 | .uintptr => true
  | .float32 | .float64 => true
  | .complex64 | .complex128 => true
  | _ => false

/-- C7 counterexample: `uintptr` is its own default concrete underlying
kind and is an unsigned integer kind per the spec's classification, yet
`numeric` returns `false` on it — the switch on line 225 of main.go omits
`types.Uintptr` — refuting the claim's "exactly when". -/
theorem c7_uintptr_cex :
    specNumericKind BasicKind.uintptr = true ∧
    (typesDefault (GoType.basic BasicKind.uintptr)).underlying =
      GoType.basic BasicKind.uintptr ∧
    numeric (some (GoType.basic BasicKind.uintptr)) = false :=
  ⟨rfl, rfl, rfl⟩

/-- C7 (amended): `numeric` is `false` on an absent type and otherwise
`true` exactly when the default concrete underlying kind is a signed
integer, unsigned integer, floating-point or complex kind other than
`uintptr`. -/
theorem c7_numeric_iff :
    ∀ (ot : Option GoType), numeric ot = true ↔
      ∃ t k, ot = some t ∧ (typesDefault t).underlying = GoType.basic k ∧
        specNumericKind k = true ∧ k ≠ BasicKind.uintptr := by
  intro ot
  cases ot with
  | none => simp [numeric]
  | some t =>
    constructor
    · intro h
      rcases hu : (typesDefault t).underlying with k | b | ⟨hr, p, q, v⟩ | ⟨ke, ee⟩ | _ <;>
        rw [numeric, hu] at h <;> simp at h
      refine ⟨t, k, rfl, hu, ?_, ?_⟩ <;> revert h <;>
        cases k <;> simp [specNumericKind]
    · rintro ⟨t', k, ht, hu, hs, hk⟩
      injection ht with ht'
      subst ht'
      rw [numeric, hu]
      cases k <;> simp_all [specNumericKind]

/-- C2 counterexample: the scanner does descend into a matched
conditional's children. On `if f(b) == 0 { x = 1 } else { x = 2 }` —
which satisfies `PotentialIversonIf` — `counter.inspect` increments
`implicit`, logs the conditional's position, and then returns `true`, so
`ast.Inspect` walks the condition and counts the call `f(b)` as an
explicit hit inside the matched conditional: the scan yields
`implicit = 1` and `explicit = 1` with hits at both positions, not
`explicit = 0` with the conditional's hit alone as the claim requires. -/
theorem c2_descends_into_matched_if_cex :
    PotentialIversonIf demoEnv (blockX "1") (.some (.block (blockX "2"))) = true ∧
    inspectStmt demoEnv ⟨0, 0, []⟩ ifWithCallInCond = .ok ⟨1, 1, [10, 7]⟩ ∧
    inspectStmt demoEnv ⟨0, 0, []⟩ ifWithCallInCond ≠ .ok ⟨1, 0, [10]⟩ := by
  have h : inspectStmt demoEnv ⟨0, 0, []⟩ ifWithCallInCond = .ok ⟨1, 1, [10, 7]⟩ := rfl
  exact ⟨rfl, h, by
    rw [h]
    intro hc
    exact absurd (Except.ok.inj hc) (by decide)⟩

/-- C2 (amended): when `PotentialIversonIf` matches, the scanner
increments `implicitCount`, emits a Hit Record at the node's position, and
then continues into the node's initializer, condition, body and else
branch through the default traversal (so hits inside them are still
counted). -/
theorem c2_matched_if_descends :
    ∀ (env : TypeEnv) (st : ScanState) (init : OptStmt) (cond : Expr)
      (body : StmtList) (els : OptStmt) (pos : Nat),
      PotentialIversonIf env body els = true →
      inspectStmt env st (.ifStmt init cond body els pos) = (do
        let st1 : ScanState :=
          { st with implicit := st.implicit + 1, hits := st.hits ++ [pos] }
        let st2 ← inspectOptStmt env st1 init
        let st3 ← inspectExpr env st2 cond
        let st4 ← inspectStmtList env st3 body
        inspectOptStmt env st4 els) := by
  intro env st init cond body els pos h
  rw [inspectStmt, if_pos h]

/-- C2 witness: the amended theorem applied to
`if cond { x = 1 } else { x = 2 }` from the fresh counter. -/
theorem c2_matched_if_descends_witness :
    inspectStmt demoEnv ⟨0, 0, []⟩ plainIversonIf = (do
      let st1 : ScanState := ⟨1, 0, [3]⟩
      let st2 ← inspectOptStmt demoEnv st1 OptStmt.none
      let st3 ← inspectExpr demoEnv st2 (.ident "cond")
      let st4 ← inspectStmtList demoEnv st3 (blockX "1")
      inspectOptStmt demoEnv st4 (OptStmt.some (.block (blockX "2")))) :=
  c2_matched_if_descends demoEnv ⟨0, 0, []⟩ .none (.ident "cond") (blockX "1")
    (.some (.block (blockX "2"))) 3 rfl

/-- C1 counterexample: in the chain
`if c1 { y = s } else if c2 { x = 1 } else { x = 2 }` the second link
satisfies `PotentialIversonIf` and the first does not, yet the scan counts
no implicit hit at all — `counter.recurOnIf` recurses into the chained
else without re-applying the match test — so the claimed count of 1 is
refuted. -/
theorem c1_chain_link_not_counted_cex :
    PotentialIversonIf demoEnv (blockX "1") (.some (.block (blockX "2"))) = true ∧
    PotentialIversonIf demoEnv
      (.cons (.assign (.cons (.ident "y") .nil) .assign (.ident "s") .nil) .nil)
      (.some chainLink2) = false ∧
    Find chainPkg = .ok (0, 0) ∧
    Find chainPkg ≠ .ok (1, 0) := by
  have h : Find chainPkg = .ok (0, 0) := rfl
  exact ⟨rfl, rfl, h, by
    rw [h]
    intro hc
    exact absurd (Except.ok.inj hc) (by decide)⟩

/-- C1 (amended): the scanner never applies the implicit-match test to a
link of an else-if chain: an unmatched outer conditional whose else branch
is a chained conditional is handed to `counter.recurOnIf`, and the else
switch of `recurOnIf` enters the inner conditional by recursing on its
parts directly instead of re-entering `counter.inspect`, so the chain in
which only the second link satisfies `PotentialIversonIf` yields
`implicitCount = 0`. -/
theorem c1_chain_links_not_matched :
    (∀ (env : TypeEnv) (st : ScanState) (init : OptStmt) (cond : Expr)
      (body : StmtList) (init2 : OptStmt) (cond2 : Expr) (body2 : StmtList)
      (els2 : OptStmt) (pos pos2 : Nat),
      inspectStmt env st
          (.ifStmt init cond body (.some (.ifStmt init2 cond2 body2 els2 pos2)) pos) =
        recurOnIf env st init cond body (.some (.ifStmt init2 cond2 body2 els2 pos2)) ∧
      recurOnElse env st (.some (.ifStmt init2 cond2 body2 els2 pos2)) =
        recurOnIf env st init2 cond2 body2 els2) ∧
    PotentialIversonIf demoEnv (blockX "1") (.some (.block (blockX "2"))) = true ∧
    Find chainPkg = .ok (0, 0) := by
  exact ⟨fun env st init cond body init2 cond2 body2 els2 pos pos2 => ⟨rfl, rfl⟩,
    rfl, rfl⟩

/-- C6: a call is counted as an explicit hit exactly when its target is
not a qualified or member reference (not a selector expression) and the
target's resolved type is accepted by `IsBracketFunc`; concretely, the
direct call `f(b)` with `f : func(bool) int` yields one explicit hit while
the method call `recv.m(b)` and the package-qualified call `pkg.f(b)`,
whose callee types have the identical shape, yield none. -/
theorem c6_call_counting :
    (∀ (env : TypeEnv) (st st' : ScanState) (fn : Expr) (pos : Nat),
      callStep env st fn pos = .ok st' →
      (st'.explicit = st.explicit + 1 ↔
        (isSelectorExpr fn = false ∧ IsBracketFunc (env fn) = .ok true))) ∧
    Find directCallPkg = .ok (0, 1) ∧
    Find methodCallPkg = .ok (0, 0) ∧
    Find pkgQualifiedCallPkg = .ok (0, 0) := by
  refine ⟨?_, rfl, rfl, rfl⟩
  intro env st st' fn pos h
  have hne : ¬ st.explicit = st.explicit + 1 := by omega
  rw [callStep] at h
  cases hsel : isSelectorExpr fn with
  | true =>
    rw [if_pos hsel] at h
    injection h with h
    subst h
    simp [hsel, hne]
  | false =>
    rw [if_neg (by simp [hsel])] at h
    rcases hb : IsBracketFunc (env fn) with u | b
    · rw [hb] at h
      exact absurd h (by simp [Bind.bind, Except.bind])
    · rw [hb] at h
      cases b with
      | false =>
        simp only [Bind.bind, Except.bind, Bool.false_eq_true, if_false] at h
        injection h with h
        subst h
        simp [hb, hne]
      | true =>
        simp only [Bind.bind, Except.bind, if_true] at h
        injection h with h
        subst h
        simp [hsel, hb]

/-- Invariant of the reporting loop: from an accumulator whose entries all
have positive count sums and whose running totals are the column sums of
the accumulator, a successful run ends with entries that all have positive
count sums and totals that are the column sums of the final output. -/
theorem reportLoop_spec :
    ∀ (ps : List Pkg) (acc : List (String × Nat × Nat)) (ti te : Nat)
      (out : List (String × Nat × Nat)) (ti' te' : Nat),
      reportLoop ps acc ti te = .ok (out, ti', te') →
      (∀ e ∈ acc, 0 < e.2.1 + e.2.2) →
      ti = (acc.map fun e => e.2.1).sum →
      te = (acc.map fun e => e.2.2).sum →
      (∀ e ∈ out, 0 < e.2.1 + e.2.2) ∧
      ti' = (out.map fun e => e.2.1).sum ∧
      te' = (out.map fun e => e.2.2).sum := by
  intro ps
  induction ps with
  | nil =>
    intro acc ti te out ti' te' h hacc hti hte
    simp only [reportLoop, Except.ok.injEq, Prod.mk.injEq] at h
    obtain ⟨h1, h2, h3⟩ := h
    subst h1
    subst h2
    subst h3
    exact ⟨hacc, hti, hte⟩
  | cons p ps ih =>
    intro acc ti te out ti' te' h hacc hti hte
    rw [reportLoop] at h
    rcases hf : Find p with u | ⟨im, ex⟩
    · simp only [hf] at h
      exact absurd h (by simp)
    · simp only [hf] at h
      by_cases hpos : im + ex > 0
      · rw [if_pos hpos] at h
        refine ih (acc ++ [(p.id, im, ex)]) (ti + im) (te + ex) out ti' te' h ?_ ?_ ?_
        · intro e he
          rcases List.mem_append.mp he with h1 | h2
          · exact hacc e h1
          · simp only [List.mem_singleton] at h2
            subst h2
            simpa using hpos
        · simp [hti, List.map_append, List.sum_append]
        · simp [hte, List.map_append, List.sum_append]
      · rw [if_neg hpos] at h
        exact ih acc ti te out ti' te' h hacc hti hte

/-- C9: every entry of the per-package report has a positive count sum (a
package scanning to `(0, 0)` contributes no entry), and the aggregate is
printed exactly when more than one package was loaded, in which case it
equals the column-wise sum of the reported entries. -/
theorem c9_report :
    ∀ (ps : List Pkg) (out : List (String × Nat × Nat)) (totals : Option (Nat × Nat)),
      Main (.success ps 0) = .ok (out, totals) →
      (∀ e ∈ out, 0 < e.2.1 + e.2.2) ∧
      totals = (if 1 < ps.length then
          some ((out.map fun e => e.2.1).sum, (out.map fun e => e.2.2).sum)
        else none) := by
  intro ps out totals h
  by_cases hlen : ps.length = 0
  · simp [Main, Packages, hlen] at h
  · rw [Main] at h
    have hpk : Packages (.success ps 0) = .ok ps := by
      simp [Packages, hlen]
    simp only [hpk] at h
    rcases hrl : reportLoop ps [] 0 0 with u | ⟨out', ti, te⟩
    · simp only [hrl] at h
      exact absurd h (by simp)
    · simp only [hrl] at h
      injection h with h2
      have ho : out' = out := congrArg Prod.fst h2
      have ht : (if ps.length > 1 then some (ti, te) else none) = totals :=
        congrArg Prod.snd h2
      subst ho
      obtain ⟨hpos, hti, hte⟩ :=
        reportLoop_spec ps [] 0 0 out' ti te hrl (by simp) (by simp) (by simp)
      refine ⟨hpos, ?_⟩
      rw [← ht, hti, hte]

/-- C9 witness: the theorem applied to a two-package load in which the
package of the direct call `f(b)` reports `(0, 1)` and the clean package
is dropped, with the aggregate printed because two packages were loaded. -/
theorem c9_report_witness :
    (∀ e ∈ [("direct", (0 : Nat), (1 : Nat))], 0 < e.2.1 + e.2.2) ∧
    (some ((0 : Nat), (1 : Nat)) : Option (Nat × Nat)) =
      (if 1 < [directCallPkg, cleanPkg].length then
        some ((([("direct", (0 : Nat), (1 : Nat))]).map fun e => e.2.1).sum,
          (([("direct", (0 : Nat), (1 : Nat))]).map fun e => e.2.2).sum)
      else none) :=
  c9_report [directCallPkg, cleanPkg] [("direct", 0, 1)] (some (0, 1)) rfl

/-- C10: a loader failure is returned as the program's error, any
positive count of package errors aborts with "could not load packages",
and an empty package list aborts with "no packages to load" — in every
case `Main` returns an error carrying no per-package entries and no
aggregate, and by construction the reporting loop (the only place a
package is scanned) is never reached. -/
theorem c10_load_failures :
    (∀ msg, Main (.failure msg) = .error (.loadErr msg)) ∧
    (∀ (ps : List Pkg) (errCount : Nat), 0 < errCount →
      Main (.success ps errCount) = .error (.loadErr "could not load packages")) ∧
    Main (.success [] 0) = .error (.loadErr "no packages to load") := by
  refine ⟨fun msg => rfl, ?_, rfl⟩
  intro ps n hn
  rw [Main, Packages, if_pos hn]
